import Mathlib

/-!
Verification of the sitemap-extraction and bulk-scraping logic of the
Scrape-Data repository (src/sitemap_extractor.py, src/bulk_scraper.py,
src/product_scraper_automated.py) against its natural-language specification.

The Python code is shallowly embedded: pure data-manipulation code becomes
Lean functions over explicit inputs; the HTTP fetch, the HTML/XML parse
results and the wall clock are modelled as explicit input data; filesystem
effects become an explicit event trace applied to a file-set state.
Each definition carries a comment pointing at the source lines it embeds.

String primitives are implemented over `List Char` by structural recursion so
that every concrete instance evaluates inside the kernel; they mirror the
Python string operations the code uses (`in`, `split`, `lower`, `startswith`,
`endswith`).
-/

/-- Characters of `l` strictly before the first occurrence of the non-empty
separator `sep`; all of `l` when `sep` does not occur. -/
def beforeFirst (sep : List Char) : List Char → List Char
  | [] => []
  | c :: cs => if sep.isPrefixOf (c :: cs) then [] else c :: beforeFirst sep cs

/-- Characters of `l` strictly after the first occurrence of the non-empty
separator `sep`; `none` when `sep` does not occur in `l` (for non-empty
`sep`, occurrences in the empty list do not exist). -/
def afterFirst (sep : List Char) : List Char → Option (List Char)
  | [] => none
  | c :: cs =>
    if sep.isPrefixOf (c :: cs) then some (List.drop sep.length (c :: cs))
    else afterFirst sep cs

/-- Python's substring test `sub in s` (for example `'/products/' in url`)
for a non-empty `sub`: does `sub` occur in `s`? -/
def strContains (s sub : String) : Bool :=
  (afterFirst sub.data s.data).isSome

/-- Fuel-driven iteration of `afterFirst`: repeatedly drop through the
leftmost occurrence of `sep`. With fuel at least the length of the input
this computes the text after the last (leftmost-scanned, non-overlapping)
occurrence of `sep`, which is Python's `s.split(sep)[-1]`. -/
def lastPieceGo (sep : List Char) : Nat → List Char → List Char
  | 0, l => l
  | fuel + 1, l =>
    match afterFirst sep l with
    | none => l
    | some rest => lastPieceGo sep fuel rest

/-- Python's `s.split(sep)[-1]` for a non-empty separator: the text after
the last occurrence of `sep` under left-to-right non-overlapping scanning
(the whole string when `sep` does not occur). -/
def splitLast (s sep : String) : String :=
  String.mk (lastPieceGo sep.data s.data.length s.data)

/-- Python's `s.lower()` restricted to ASCII case mapping, which is all the
code's inputs exercise (`'product' in url.lower()`). -/
def lowerStr (s : String) : String :=
  String.mk (s.data.map Char.toLower)

/-- Python's `s.startswith(p)`. -/
def strStartsWith (s p : String) : Bool :=
  p.data.isPrefixOf s.data

/-- Python's `s.endswith(p)`. -/
def strEndsWith (s p : String) : Bool :=
  p.data.reverse.isPrefixOf s.data.reverse

/-- Host ("netloc") of a `scheme://host/path` URL, as `urlparse(url).netloc`
produces for such URLs: the text between the first `://` and the next `/`.
Used to state the spec's same-host property about extracted product URLs. -/
def urlHost (u : String) : String :=
  match afterFirst "://".data u.data with
  | some rest => String.mk (beforeFirst ['/'] rest)
  | none => ""

/-! ## Sitemap extractor (src/sitemap_extractor.py) -/

/-- One immediate child element of a parsed sitemap-index root, as the code
reads it: its tag name, and the text of its `<loc>` descendant when
`sitemap.find('.//{ns}loc')` returns an element (src/sitemap_extractor.py
lines 222-227). -/
structure XmlChild where
  tag : String
  loc : Option String
deriving DecidableEq

/-- The `sitemap_urls` list built by `_process_sitemap_index`
(src/sitemap_extractor.py lines 221-227): the `<loc>` text of every child
whose tag ends in `sitemap`. -/
def collectSitemapLocs (children : List XmlChild) : List String :=
  children.filterMap (fun c => if strEndsWith c.tag "sitemap" then c.loc else none)

/-- The product filter of `_process_sitemap_index`
(src/sitemap_extractor.py line 231): `'product' in url.lower()`. -/
def hasProductToken (u : String) : Bool :=
  strContains (lowerStr u) "product"

/-- `SitemapExtractor._process_sitemap_index` (src/sitemap_extractor.py
lines 215-249), modelled on the collected child elements of the index root.
`Except.ok u` means the method calls `_load_and_parse_sitemap(u)` and on no
other location (the code fetches only `product_sitemaps[0]`, lines 238-245).
`Except.error` models the `IndexError` raised by the unguarded
`product_sitemaps[0]` in the `logger.info` call on line 239 when no location
was collected; the surrounding `except` block logs it and re-raises it
(lines 247-249), so it propagates to the caller of `load_sitemap`. -/
def process_sitemap_index (children : List XmlChild) : Except String String :=
  let sitemap_urls := collectSitemapLocs children
  let product_sitemaps := sitemap_urls.filter (fun u => hasProductToken u)
  let chosen := if product_sitemaps.isEmpty then sitemap_urls.take 1 else product_sitemaps
  match chosen with
  | [] => Except.error "list index out of range"
  | u :: _ => Except.ok u

/-- One entry of the list returned by `extract_product_urls`
(src/sitemap_extractor.py lines 324-327): the dict
`{'url': url, 'product_name': product_name}`. -/
structure ProductData where
  url : String
  product_name : String
deriving DecidableEq

/-- The optional `url_pattern` filter of `extract_product_urls`
(src/sitemap_extractor.py line 317): `if url_pattern and not
re.search(url_pattern, url): continue`. The regex matcher is abstracted as a
predicate; `none` models a falsy pattern (`None` or `''`), for which no
filtering is applied. -/
def matchesPat (pat : Option (String → Bool)) (u : String) : Bool :=
  match pat with
  | none => true
  | some p => p u

/-- The `product_name` computation of `extract_product_urls`
(src/sitemap_extractor.py lines 321-322):
`url.split('/products/')[-1] if '/products/' in url else 'unknown'`. -/
def productNameOf (url : String) : String :=
  if strContains url "/products/" then splitLast url "/products/"
  else "unknown"

/-- `SitemapExtractor.extract_product_urls` (src/sitemap_extractor.py lines
297-343) over the loaded `self.all_urls`: raises `ValueError` when no URLs
are loaded (lines 307-308), otherwise keeps, in document order, every URL
containing `/products/` that passes the optional pattern filter, pairing it
with its `product_name` (lines 313-329). The progress logging and the
`self.product_urls` assignment carry no data and are not modelled. -/
def extract_product_urls (all_urls : List String) (pat : Option (String → Bool)) :
    Except String (List ProductData) :=
  if all_urls.isEmpty then Except.error "No sitemap loaded. Call load_sitemap() first."
  else Except.ok ((all_urls.filter
      (fun u => strContains u "/products/" && matchesPat pat u)).map
      (fun u => { url := u, product_name := productNameOf u }))

/-! ## Pricing extraction (src/product_scraper_automated.py lines 315-366) -/

/-- Python's `\s` character class as `re.search` applies it to the price
texts (ASCII whitespace). -/
def pyIsSpace (c : Char) : Bool :=
  c = ' ' || c = '\t' || c = '\n' || c = '\r' || c = '\x0B' || c = '\x0C'

/-- The character class `[\d,]` of the price pattern. -/
def isDigitOrComma (c : Char) : Bool :=
  c.isDigit || c = ','

/-- Attempt of the price pattern at a rupee sign: on the text following a
`₹`, `\s*` greedily consumes whitespace and `([\d,]+)` must then capture a
non-empty run of digits and commas. -/
def matchAfterRupee (cs : List Char) : Option (List Char) :=
  let rest := cs.dropWhile pyIsSpace
  let grp := rest.takeWhile isDigitOrComma
  if grp.isEmpty then none else some grp

/-- `re.search(r'₹\s*([\d,]+)', text)` (src/product_scraper_automated.py
lines 329 and 340): the leftmost occurrence of the pattern, returning the
captured group. A `₹` not followed (after whitespace) by a digit or comma
does not match, and the search continues at later positions. -/
def rupeeSearch : List Char → Option (List Char)
  | [] => none
  | c :: cs =>
    if c = '₹' then
      match matchAfterRupee cs with
      | some grp => some grp
      | none => rupeeSearch cs
    else rupeeSearch cs

/-- `group(1).replace(',', '')` (src/product_scraper_automated.py lines
332 and 343). -/
def groupDigits (grp : List Char) : List Char :=
  grp.filter (fun c => c ≠ ',')

/-- `int(...)` applied to the comma-free digit string. -/
def digitsToNat (ds : List Char) : Nat :=
  ds.foldl (fun n c => n * 10 + (c.toNat - 48)) 0

/-- The three elements `extract_pricing_info` reads out of the
`compare-price-wrapper` div: the stripped text of the `compare-price`,
`regular-price` and `perc_price` spans, each `none` when `find` returns no
element (src/product_scraper_automated.py lines 324-350). -/
structure PriceWrapperData where
  compare_price : Option String
  regular_price : Option String
  perc_price : Option String
deriving DecidableEq

/-- The `pricing_info` dict built by `extract_pricing_info`, restricted to
the keys that survive `_filter_unwanted_fields` and that
`_transform_data_schema` reads (`original_price`, `sale_price`,
`discount_percentage`, `savings_amount`) plus the `currency` key; a field is
`none` when the corresponding key is absent from the dict. -/
structure PricingInfo where
  original_price : Option Nat
  sale_price : Option Nat
  discount_percentage : Option String
  savings_amount : Option Int
  currency : Option String
deriving DecidableEq

/-- One price field of `extract_pricing_info`: absent element or unmatched
pattern assigns nothing (`Except.ok none`); a match whose captured group
consists only of commas makes `int('')` raise `ValueError`
(`Except.error ()`), which aborts the method body; otherwise the parsed
amount is assigned. -/
def parsePriceField (text : Option String) : Except Unit (Option Nat) :=
  match text with
  | none => Except.ok none
  | some t =>
    match rupeeSearch t.data with
    | none => Except.ok none
    | some grp =>
      let ds := groupDigits grp
      if ds.isEmpty then Except.error () else Except.ok (some (digitsToNat ds))

/-- `ProductScraper.extract_pricing_info` (src/product_scraper_automated.py
lines 315-366) on the price wrapper contents (`none` when the page has no
`compare-price-wrapper` div). The whole body runs inside `try/except`: an
exception while parsing a price returns the `pricing_info` accumulated so
far, without the savings and currency assignments. Savings is computed
exactly when both prices were assigned: `savings = original_price -
sale_price` (lines 353-356). -/
def extract_pricing_info (wrapper : Option PriceWrapperData) : PricingInfo :=
  match wrapper with
  | none =>
    { original_price := none, sale_price := none, discount_percentage := none,
      savings_amount := none, currency := some "INR" }
  | some w =>
    match parsePriceField w.compare_price with
    | Except.error _ =>
      { original_price := none, sale_price := none, discount_percentage := none,
        savings_amount := none, currency := none }
    | Except.ok op =>
      match parsePriceField w.regular_price with
      | Except.error _ =>
        { original_price := op, sale_price := none, discount_percentage := none,
          savings_amount := none, currency := none }
      | Except.ok sp =>
        let sav : Option Int :=
          match op, sp with
          | some o, some s => some ((o : Int) - (s : Int))
          | _, _ => none
        { original_price := op, sale_price := sp, discount_percentage := w.perc_price,
          savings_amount := sav, currency := some "INR" }

/-- The `pricing_information` object emitted by
`FastBulkScraper._transform_data_schema` (src/bulk_scraper.py lines
342-347): each key is read with a default (`0` for the amounts, `''` for the
discount text). -/
structure TransformedPricing where
  original_price : Nat
  sale_price : Nat
  discount_percentage : String
  savings_amount : Int
deriving DecidableEq

/-- The pricing part of `_transform_data_schema` (src/bulk_scraper.py lines
342-347): `pricing_info.get(key, default)` for the four keys. -/
def transform_pricing (p : PricingInfo) : TransformedPricing :=
  { original_price := p.original_price.getD 0,
    sale_price := p.sale_price.getD 0,
    discount_percentage := p.discount_percentage.getD "",
    savings_amount := p.savings_amount.getD 0 }

/-! ## Bulk orchestrator (src/bulk_scraper.py) -/

/-- The keys `_transform_data_schema` and the bulk loop read from
`raw_data['basic_information']` (src/bulk_scraper.py lines 272-273 and
337-340): page title, main title and the Shopify product handle, each
`none` when the scraped page did not yield the key. -/
structure RawBasicInfo where
  page_title : Option String
  main_title : Option String
  product_handle : Option String
deriving DecidableEq

/-- The seven specification keys `_transform_data_schema` reads
(src/bulk_scraper.py lines 348-356). -/
structure RawSpecs where
  fabric : Option String
  fit : Option String
  closure : Option String
  collar : Option String
  sleeve : Option String
  pattern : Option String
  occasion : Option String
deriving DecidableEq

/-- The parts of the raw `ProductScraper.scrape_all_data()` record that the
bulk pipeline reads: basic information, the pricing dict (an
`extract_pricing_info` result), specifications, the
`size_and_availability['size_availability']` mapping, and the images list
with its main image (src/bulk_scraper.py lines 325-334). -/
structure RawData where
  basic_information : RawBasicInfo
  pricing_information : PricingInfo
  product_specifications : RawSpecs
  size_availability : Option (List (String × Bool))
  product_images : Option (List String)
  main_image : Option String
deriving DecidableEq

/-- The `basic_information` object of the transformed schema
(src/bulk_scraper.py lines 337-341). -/
structure TransformedBasic where
  page_title : String
  main_title : String
  url : String
deriving DecidableEq

/-- The `product_specifications` object of the transformed schema
(src/bulk_scraper.py lines 348-356). -/
structure TransformedSpecs where
  fabric : String
  fit : String
  closure : String
  collar : String
  sleeve : String
  pattern : String
  occasion : String
deriving DecidableEq

/-- The `product_images` object of the transformed schema
(src/bulk_scraper.py lines 358-361). -/
structure TransformedImages where
  product_images : List String
  main_image : String
deriving DecidableEq

/-- One flat product record as emitted into `all_products.json`
(src/bulk_scraper.py lines 336-362). -/
structure TransformedData where
  basic_information : TransformedBasic
  pricing_information : TransformedPricing
  product_specifications : TransformedSpecs
  size_availability : List (String × Bool)
  product_images : TransformedImages
deriving DecidableEq

/-- `FastBulkScraper._transform_data_schema` (src/bulk_scraper.py lines
314-364): every field is read with `.get(key, default)`; a missing
`size_availability` mapping (or a falsy empty one) becomes `{}`. -/
def transform_data_schema (raw : RawData) (url : String) : TransformedData :=
  { basic_information :=
      { page_title := raw.basic_information.page_title.getD "",
        main_title := raw.basic_information.main_title.getD "",
        url := url },
    pricing_information := transform_pricing raw.pricing_information,
    product_specifications :=
      { fabric := raw.product_specifications.fabric.getD "",
        fit := raw.product_specifications.fit.getD "",
        closure := raw.product_specifications.closure.getD "",
        collar := raw.product_specifications.collar.getD "",
        sleeve := raw.product_specifications.sleeve.getD "",
        pattern := raw.product_specifications.pattern.getD "",
        occasion := raw.product_specifications.occasion.getD "" },
    size_availability := raw.size_availability.getD [],
    product_images :=
      { product_images := raw.product_images.getD [],
        main_image := raw.main_image.getD "" } }

/-- One entry of `self.failed_urls` (src/bulk_scraper.py lines 301-305):
`{'url': url, 'error': str(e), 'index': i}` with the 1-based loop index. -/
structure FailedEntry where
  url : String
  error : String
  index : Nat
deriving DecidableEq

/-- Observable side effects of a bulk run on the output directory and the
clock: writing a file (`open(..., 'w')` + `json.dump`/`csv` emit), deleting
a file (`os.remove`), and `time.sleep` of a given number of seconds. -/
inductive Event where
  | writeFile (path : String)
  | removeFile (path : String)
  | sleep (seconds : ℚ)
deriving DecidableEq

/-- Effect of one event on the set of files present in the output
directory (kept as a duplicate-free list). -/
def applyEvent (fs : List String) : Event → List String
  | Event.writeFile p => if p ∈ fs then fs else fs ++ [p]
  | Event.removeFile p => fs.filter (fun q => decide (q ≠ p))
  | Event.sleep _ => fs

/-- Files present after a trace of events, starting from `fs`. -/
def applyEvents (fs : List String) (evs : List Event) : List String :=
  evs.foldl applyEvent fs

/-- One URL of a bulk run together with the outcome of its
`ProductScraper(url).scrape_all_data()` call (src/bulk_scraper.py lines
265-266): the raw record on success, or the caught exception text
(`str(e)`) on a fetch/extraction failure. The network and the page parser
are external collaborators, so this outcome is input data to the model. -/
abbrev ScrapeItem := String × Except String RawData

/-- The mutable per-run state of `FastBulkScraper` during
`fast_scrape_products` (src/bulk_scraper.py lines 260-311):
`self.scraped_data`, `self.failed_urls`, `self.temp_files`, the
`successful_scrapes` and `failed_scrapes` counters, and the trace of file
and sleep effects performed so far. -/
structure RunState where
  scraped_data : List TransformedData
  failed_urls : List FailedEntry
  temp_files : List String
  successful : Nat
  failed : Nat
  events : List Event

/-- State at the top of the scrape loop: empty accumulators and zero
counters (src/bulk_scraper.py lines 132-162). -/
def initRunState : RunState :=
  { scraped_data := [], failed_urls := [], temp_files := [], successful := 0,
    failed := 0, events := [] }

/-- Name of the per-item intermediate file (src/bulk_scraper.py lines
272-274): `{product_handle}.json`, the handle defaulting to `product_{i}`
with the 1-based loop index. -/
def handleFile (i : Nat) (raw : RawData) : String :=
  raw.basic_information.product_handle.getD ("product_" ++ toString i) ++ ".json"

/-- Events of the i-th (1-based) loop iteration out of n
(src/bulk_scraper.py lines 260-309): on success, write the individual file
and, when more items follow (`i < len(self.product_urls)`), sleep
`self.delay`; on failure, sleep `self.delay / 2` unconditionally. -/
def itemEvents (d : ℚ) (n i : Nat) (it : ScrapeItem) : List Event :=
  match it.2 with
  | Except.ok raw =>
    Event.writeFile (handleFile i raw) :: (if i < n then [Event.sleep d] else [])
  | Except.error _ => [Event.sleep (d / 2)]

/-- One iteration of the scrape loop (src/bulk_scraper.py lines 260-309):
on success, append the transformed record and the temp file, bump
`successful_scrapes`; on a caught exception, append the failure entry and
bump `failed_scrapes` — the loop continues either way. -/
def stepItem (d : ℚ) (n i : Nat) (it : ScrapeItem) (st : RunState) : RunState :=
  match it with
  | (url, Except.ok raw) =>
    { st with
      scraped_data := st.scraped_data ++ [transform_data_schema raw url],
      temp_files := st.temp_files ++ [handleFile i raw],
      successful := st.successful + 1,
      events := st.events ++ itemEvents d n i (url, Except.ok raw) }
  | (url, Except.error e) =>
    { st with
      failed_urls := st.failed_urls ++ [{ url := url, error := e, index := i }],
      failed := st.failed + 1,
      events := st.events ++ itemEvents d n i (url, Except.error e) }

/-- The `for i, url in enumerate(self.product_urls, 1)` loop of
`fast_scrape_products` (src/bulk_scraper.py line 260), processing the
remaining items with 1-based index `i`. -/
def runItems (d : ℚ) (n : Nat) : List ScrapeItem → Nat → RunState → RunState
  | [], _, st => st
  | it :: rest, i, st => runItems d n rest (i + 1) (stepItem d n i it st)

/-- State after the whole scrape loop of a run over `items`. -/
def loopState (d : ℚ) (items : List ScrapeItem) : RunState :=
  runItems d items.length items 1 initRunState

/-- Number of items whose scrape succeeded. -/
def okCount : List ScrapeItem → Nat
  | [] => 0
  | (_, Except.ok _) :: rest => okCount rest + 1
  | (_, Except.error _) :: rest => okCount rest

/-- Number of items whose scrape failed. -/
def errCount : List ScrapeItem → Nat
  | [] => 0
  | (_, Except.ok _) :: rest => errCount rest
  | (_, Except.error _) :: rest => errCount rest + 1

/-- Transformed records of the successful items, in order. -/
def scrapedOf : List ScrapeItem → List TransformedData
  | [] => []
  | (url, Except.ok raw) :: rest => transform_data_schema raw url :: scrapedOf rest
  | (_, Except.error _) :: rest => scrapedOf rest

/-- Temp-file names of the successful items, `i` the 1-based index of the
first item. -/
def tempsOf : Nat → List ScrapeItem → List String
  | _, [] => []
  | i, (_, Except.ok raw) :: rest => handleFile i raw :: tempsOf (i + 1) rest
  | i, (_, Except.error _) :: rest => tempsOf (i + 1) rest

/-- Failure entries of the failed items, `i` the 1-based index of the first
item. -/
def failsOf : Nat → List ScrapeItem → List FailedEntry
  | _, [] => []
  | i, (_, Except.ok _) :: rest => failsOf (i + 1) rest
  | i, (url, Except.error e) :: rest => { url := url, error := e, index := i } :: failsOf (i + 1) rest

/-- Concatenated per-iteration events, `i` the 1-based index of the first
item. -/
def eventsOf (d : ℚ) (n : Nat) : Nat → List ScrapeItem → List Event
  | _, [] => []
  | i, it :: rest => itemEvents d n i it ++ eventsOf d n (i + 1) rest

/-- The cleanup loop of `_generate_final_files` (src/bulk_scraper.py lines
389-397): for each tracked temp file, in order, `if temp_file.exists():
os.remove(temp_file); cleaned_files += 1`. `rf` tells which `os.remove`
calls raise (an environment fact); a raising call is caught, logged with
`logger.warning`, and the loop continues without counting the file.
Returns the remove events performed and the `cleaned_files` counter. -/
def cleanupEvents (rf : String → Bool) : List String → List String → List Event × Nat
  | [], _ => ([], 0)
  | t :: ts, fs =>
    if t ∈ fs then
      if rf t then cleanupEvents rf ts fs
      else
        (Event.removeFile t :: (cleanupEvents rf ts (fs.filter (fun q => decide (q ≠ t)))).1,
         (cleanupEvents rf ts (fs.filter (fun q => decide (q ≠ t)))).2 + 1)
    else cleanupEvents rf ts fs

/-- The report dict returned by `_generate_final_files`
(src/bulk_scraper.py lines 402-419). `success_rate` is kept as the exact
ratio `successful_scrapes / total_urls` that the code formats as a
one-decimal percent string; the wall-clock `duration`,
`average_time_per_product` and `scraping_completed_at` strings are
real-time data and are not modelled. -/
structure Report where
  total_urls : Nat
  successful_scrapes : Nat
  failed_scrapes : Nat
  success_rate : ℚ
  combined_json : String
  combined_csv : String
  failed_file : Option String
  individual_files_cleaned : Nat

/-- Result of a completed bulk run: final scraper state, the full effect
trace, the files left in the output directory (assumed fresh at start, as
created by `output_path.mkdir(exist_ok=True)`), and the report. -/
structure RunOutput where
  state : RunState
  events : List Event
  finalFs : List String
  report : Report

/-- `FastBulkScraper._generate_final_files` (src/bulk_scraper.py lines
366-429): write `all_products.json` (the `self.scraped_data` array) and
`all_products.csv`; write `failed_urls.json` only if failures occurred;
then run the cleanup loop over `self.temp_files`; then build the report and
write `scraping_report.json`. -/
def generate_final_files (rf : String → Bool) (st : RunState) (total : Nat) : RunOutput :=
  let ev2 := st.events ++
    [Event.writeFile "all_products.json", Event.writeFile "all_products.csv"] ++
    (if st.failed_urls.isEmpty then [] else [Event.writeFile "failed_urls.json"])
  let fsBefore := applyEvents [] ev2
  let cleanup := cleanupEvents rf st.temp_files fsBefore
  let evAll := ev2 ++ cleanup.1 ++ [Event.writeFile "scraping_report.json"]
  { state := st,
    events := evAll,
    finalFs := applyEvents [] evAll,
    report :=
      { total_urls := total,
        successful_scrapes := st.successful,
        failed_scrapes := st.failed,
        success_rate := (st.successful : ℚ) / (total : ℚ),
        combined_json := "all_products.json",
        combined_csv := "all_products.csv",
        failed_file := if st.failed_urls.isEmpty then none else some "failed_urls.json",
        individual_files_cleaned := cleanup.2 } }

/-- Completed run over non-empty `items`: the scrape loop followed by final
file generation, with `total_urls = len(self.product_urls)`. -/
def runOutput (d : ℚ) (rf : String → Bool) (items : List ScrapeItem) : RunOutput :=
  generate_final_files rf (loopState d items) items.length

/-- `FastBulkScraper.fast_scrape_products` (src/bulk_scraper.py lines
235-312): raises `ValueError` when `self.product_urls` is empty, before any
directory creation, scraping or sleeping; otherwise runs the loop over all
items and returns the report of `_generate_final_files`. -/
def fast_scrape_products (d : ℚ) (rf : String → Bool) (items : List ScrapeItem) :
    Except String RunOutput :=
  if items.isEmpty then Except.error "No URLs to scrape. Call extract_product_urls() first."
  else Except.ok (runOutput d rf items)

/-- The sleep durations of a trace, in order. -/
def sleepTrace (evs : List Event) : List ℚ :=
  evs.filterMap (fun e => match e with | Event.sleep q => some q | _ => none)

/-- The `self.stats` dict initialised by `FastBulkScraper.__init__`
(src/bulk_scraper.py lines 156-162); the two timestamps are opaque. -/
structure ScrapeStats where
  total_urls : Nat
  successful_scrapes : Nat
  failed_scrapes : Nat
  start_time : Option Nat
  end_time : Option Nat

/-- The attribute state established by `FastBulkScraper.__init__`
(src/bulk_scraper.py lines 97-162). -/
structure ScraperInitState where
  sitemap_source : String
  delay : ℚ
  product_urls : List String
  scraped_data : List TransformedData
  failed_urls : List FailedEntry
  temp_files : List String
  stats : ScrapeStats

/-- `FastBulkScraper.__init__` (src/bulk_scraper.py lines 97-162): raises
`ValueError` unless the argument starts with `http://` or `https://`
(`startswith` on the tuple), otherwise stores the URL unchanged, sets the
0.8-second delay, and initialises empty accumulators and zeroed stats. The
constructor performs no network or filesystem call in the source. -/
def initialScraperState (sitemap_url : String) : ScraperInitState :=
  { sitemap_source := sitemap_url,
    delay := 4 / 5,
    product_urls := [],
    scraped_data := [],
    failed_urls := [],
    temp_files := [],
    stats := { total_urls := 0, successful_scrapes := 0, failed_scrapes := 0,
               start_time := none, end_time := none } }

def FastBulkScraper_init (sitemap_url : String) : Except String ScraperInitState :=
  if strStartsWith sitemap_url "http://" || strStartsWith sitemap_url "https://" then
    Except.ok (initialScraperState sitemap_url)
  else
    Except.error
      "Only sitemap URLs are supported. Please provide a valid URL starting with http:// or https://"

/-- A minimal raw record whose page yielded only (optionally) a product
handle; used to instantiate concrete runs. -/
def sampleRaw (handle : Option String) : RawData :=
  { basic_information := { page_title := none, main_title := none, product_handle := handle },
    pricing_information := { original_price := none, sale_price := none,
                             discount_percentage := none, savings_amount := none,
                             currency := none },
    product_specifications := { fabric := none, fit := none, closure := none, collar := none,
                                sleeve := none, pattern := none, occasion := none },
    size_availability := none,
    product_images := none,
    main_image := none }

/-! ## Lemmas about the scrape loop -/

lemma runItems_eq (d : ℚ) (n : Nat) (items : List ScrapeItem) : ∀ (i : Nat) (st : RunState),
    runItems d n items i st =
      { scraped_data := st.scraped_data ++ scrapedOf items,
        failed_urls := st.failed_urls ++ failsOf i items,
        temp_files := st.temp_files ++ tempsOf i items,
        successful := st.successful + okCount items,
        failed := st.failed + errCount items,
        events := st.events ++ eventsOf d n i items } := by
  induction items with
  | nil => intro i st; simp [runItems, scrapedOf, failsOf, tempsOf, okCount, errCount, eventsOf]
  | cons it rest ih =>
    intro i st
    obtain ⟨url, res⟩ := it
    cases res with
    | ok raw =>
      rw [show runItems d n ((url, Except.ok raw) :: rest) i st =
        runItems d n rest (i + 1) (stepItem d n i (url, Except.ok raw) st) from rfl, ih]
      simp [stepItem, scrapedOf, failsOf, tempsOf, okCount, errCount, eventsOf,
        List.append_assoc, Nat.add_assoc, Nat.add_comm, Nat.add_left_comm]
    | error e =>
      rw [show runItems d n ((url, Except.error e) :: rest) i st =
        runItems d n rest (i + 1) (stepItem d n i (url, Except.error e) st) from rfl, ih]
      simp [stepItem, scrapedOf, failsOf, tempsOf, okCount, errCount, eventsOf,
        List.append_assoc, Nat.add_assoc, Nat.add_comm, Nat.add_left_comm]

lemma loopState_eq (d : ℚ) (items : List ScrapeItem) :
    loopState d items =
      { scraped_data := scrapedOf items,
        failed_urls := failsOf 1 items,
        temp_files := tempsOf 1 items,
        successful := okCount items,
        failed := errCount items,
        events := eventsOf d items.length 1 items } := by
  rw [loopState, runItems_eq]
  simp [initRunState]

lemma okCount_add_errCount (items : List ScrapeItem) :
    okCount items + errCount items = items.length := by
  induction items with
  | nil => rfl
  | cons it rest ih =>
    obtain ⟨url, res⟩ := it
    cases res <;> simp [okCount, errCount] <;> omega

lemma scrapedOf_length (items : List ScrapeItem) :
    (scrapedOf items).length = okCount items := by
  induction items with
  | nil => rfl
  | cons it rest ih =>
    obtain ⟨url, res⟩ := it
    cases res <;> simp [scrapedOf, okCount, ih]

lemma failsOf_length (i : Nat) (items : List ScrapeItem) :
    (failsOf i items).length = errCount items := by
  induction items generalizing i with
  | nil => rfl
  | cons it rest ih =>
    obtain ⟨url, res⟩ := it
    cases res <;> simp [failsOf, errCount, ih]

lemma failsOf_of_get (items : List ScrapeItem) :
    ∀ (i j : Nat) (url e : String), items.get? j = some (url, Except.error e) →
      ({ url := url, error := e, index := i + j } : FailedEntry) ∈ failsOf i items := by
  induction items with
  | nil => intro i j url e h; simp at h
  | cons it rest ih =>
    intro i j url e h
    cases j with
    | zero =>
      simp at h
      subst h
      simp [failsOf]
    | succ j =>
      simp only [List.get?_cons_succ] at h
      obtain ⟨u, res⟩ := it
      have hmem := ih (i + 1) j url e h
      have : i + 1 + j = i + (j + 1) := by omega
      rw [this] at hmem
      cases res <;> simp [failsOf, hmem]

lemma get_of_failsOf (items : List ScrapeItem) :
    ∀ (i : Nat) (f : FailedEntry), f ∈ failsOf i items →
      i ≤ f.index ∧ items.get? (f.index - i) = some (f.url, Except.error f.error) := by
  induction items with
  | nil => intro i f h; simp [failsOf] at h
  | cons it rest ih =>
    intro i f h
    obtain ⟨u, res⟩ := it
    cases res with
    | ok raw =>
      simp only [failsOf] at h
      obtain ⟨hle, hget⟩ := ih (i + 1) f h
      refine ⟨by omega, ?_⟩
      have hpos : f.index - i = (f.index - (i + 1)) + 1 := by omega
      rw [hpos]
      simpa using hget
    | error e =>
      simp only [failsOf, List.mem_cons] at h
      rcases h with h | h
      · subst h
        simp
      · obtain ⟨hle, hget⟩ := ih (i + 1) f h
        refine ⟨by omega, ?_⟩
        have hpos : f.index - i = (f.index - (i + 1)) + 1 := by omega
        rw [hpos]
        simpa using hget

/-! ## Lemmas about the filesystem trace -/

lemma mem_applyEvent_write (fs : List String) (p q : String) :
    p ∈ applyEvent fs (Event.writeFile q) ↔ p ∈ fs ∨ p = q := by
  by_cases hq : q ∈ fs
  · simp only [applyEvent, if_pos hq]
    exact ⟨Or.inl, fun h => h.elim id (fun hp => hp ▸ hq)⟩
  · simp [applyEvent, hq]

lemma mem_applyEvent_remove (fs : List String) (p q : String) :
    p ∈ applyEvent fs (Event.removeFile q) ↔ p ∈ fs ∧ p ≠ q := by
  simp [applyEvent, List.mem_filter]

lemma applyEvents_append (fs : List String) (a b : List Event) :
    applyEvents fs (a ++ b) = applyEvents (applyEvents fs a) b := by
  simp [applyEvents, List.foldl_append]

lemma applyEvents_cons (fs : List String) (e : Event) (evs : List Event) :
    applyEvents fs (e :: evs) = applyEvents (applyEvent fs e) evs := rfl

lemma mem_applyEvents_of_noRemove (evs : List Event) :
    (∀ q, Event.removeFile q ∉ evs) → ∀ (fs : List String) (p : String),
      (p ∈ applyEvents fs evs ↔ p ∈ fs ∨ Event.writeFile p ∈ evs) := by
  induction evs with
  | nil => intro _ fs p; simp [applyEvents]
  | cons e rest ih =>
    intro h fs p
    have hrest : ∀ q, Event.removeFile q ∉ rest := fun q hq => h q (List.mem_cons_of_mem _ hq)
    rw [applyEvents_cons]
    cases e with
    | writeFile q =>
      rw [ih hrest, mem_applyEvent_write]
      simp only [List.mem_cons, Event.writeFile.injEq]
      tauto
    | removeFile q => exact absurd (List.mem_cons_self _ _) (fun hm => h q hm)
    | sleep t =>
      rw [ih hrest]
      show _ ↔ _ ∨ Event.writeFile p ∈ Event.sleep t :: rest
      simp only [List.mem_cons]
      tauto

lemma removeFile_not_mem_eventsOf (d : ℚ) (n : Nat) (items : List ScrapeItem) :
    ∀ (i : Nat) (q : String), Event.removeFile q ∉ eventsOf d n i items := by
  induction items with
  | nil => intro i q; simp [eventsOf]
  | cons it rest ih =>
    intro i q
    obtain ⟨url, res⟩ := it
    cases res with
    | ok raw =>
      simp only [eventsOf, itemEvents, List.mem_append, List.mem_cons]
      intro h
      rcases h with (h | h) | h
      · exact absurd h (by simp)
      · by_cases hi : i < n <;> simp [hi] at h
      · exact ih (i + 1) q h
    | error e =>
      simp only [eventsOf, itemEvents, List.mem_append, List.mem_cons]
      intro h
      rcases h with h | h
      · simp at h
      · exact ih (i + 1) q h

lemma writeFile_mem_eventsOf (d : ℚ) (n : Nat) (items : List ScrapeItem) :
    ∀ (i : Nat) (p : String),
      Event.writeFile p ∈ eventsOf d n i items ↔ p ∈ tempsOf i items := by
  induction items with
  | nil => intro i p; simp [eventsOf, tempsOf]
  | cons it rest ih =>
    intro i p
    obtain ⟨url, res⟩ := it
    cases res with
    | ok raw =>
      simp only [eventsOf, itemEvents, tempsOf, List.mem_append, List.mem_cons,
        Event.writeFile.injEq, ih]
      by_cases hi : i < n <;> simp [hi]
    | error e =>
      simp only [eventsOf, itemEvents, tempsOf, List.mem_append, List.mem_cons, ih]
      simp

lemma cleanup_mem_of_notin (rf : String → Bool) (ts : List String) :
    ∀ (fs : List String) (p : String), p ∉ ts →
      (p ∈ applyEvents fs (cleanupEvents rf ts fs).1 ↔ p ∈ fs) := by
  induction ts with
  | nil => intro fs p _; simp [cleanupEvents, applyEvents]
  | cons t rest ih =>
    intro fs p hp
    have hpt : p ≠ t := fun h => hp (h ▸ List.mem_cons_self _ _)
    have hprest : p ∉ rest := fun h => hp (List.mem_cons_of_mem _ h)
    by_cases ht : t ∈ fs
    · by_cases hrf : rf t
      · simp only [cleanupEvents, if_pos ht, if_pos hrf]
        exact ih fs p hprest
      · simp only [cleanupEvents, if_pos ht, if_neg hrf]
        rw [applyEvents_cons,
          show applyEvent fs (Event.removeFile t) = fs.filter (fun q => decide (q ≠ t)) from rfl,
          ih (fs.filter (fun q => decide (q ≠ t))) p hprest]
        simp [List.mem_filter, hpt]
    · simp only [cleanupEvents, if_neg ht]
      exact ih fs p hprest

lemma cleanup_mem_false (ts : List String) :
    ∀ (fs : List String) (p : String),
      p ∈ applyEvents fs (cleanupEvents (fun _ => false) ts fs).1 ↔ p ∈ fs ∧ p ∉ ts := by
  induction ts with
  | nil => intro fs p; simp [cleanupEvents, applyEvents]
  | cons t rest ih =>
    intro fs p
    by_cases ht : t ∈ fs
    · rw [show (cleanupEvents (fun _ => false) (t :: rest) fs).1 =
          Event.removeFile t ::
            (cleanupEvents (fun _ => false) rest (fs.filter (fun q => decide (q ≠ t)))).1 from by
        simp [cleanupEvents, ht]]
      rw [applyEvents_cons,
        show applyEvent fs (Event.removeFile t) = fs.filter (fun q => decide (q ≠ t)) from rfl,
        ih (fs.filter (fun q => decide (q ≠ t))) p]
      simp only [List.mem_filter, List.mem_cons, decide_eq_true_eq]
      tauto
    · simp only [cleanupEvents, if_neg ht]
      rw [ih fs p]
      constructor
      · rintro ⟨hmem, hrest⟩
        refine ⟨hmem, ?_⟩
        simp only [List.mem_cons]
        rintro (rfl | h)
        · exact ht hmem
        · exact hrest h
      · rintro ⟨hmem, hcons⟩
        exact ⟨hmem, fun h => hcons (List.mem_cons_of_mem _ h)⟩

lemma mem_take_of_notin_left (A B : List Event) (e : Event) (m : Nat)
    (hA : e ∉ A) (he : e ∈ (A ++ B).take m) : ∀ a ∈ A, a ∈ (A ++ B).take m := by
  rw [List.take_append_eq_append_take] at he ⊢
  rcases List.mem_append.1 he with h | h
  · exact absurd (List.take_subset _ _ h) hA
  · have hk : 0 < m - A.length := by
      rcases Nat.eq_zero_or_pos (m - A.length) with h0 | h0
      · rw [h0] at h; simp at h
      · exact h0
    intro a ha
    apply List.mem_append_left
    have hlen : A.length ≤ m := by omega
    rw [List.take_of_length_le hlen]
    exact ha

/-! ## Claim C1 -/

/-- C1, counterexample: the claim says every `ProductData` returned by
`extract_product_urls` has the same host as the sitemap it came from. For
the sitemap `https://example.com/sitemap.xml` whose loaded URL list contains
the cross-host URL `https://other.com/products/x`, extraction returns that
URL even though its host differs from the sitemap's host: the code filters
on the substring `/products/` only and never compares hosts. -/
theorem claim1_counterexample :
    extract_product_urls ["https://other.com/products/x"] none =
      Except.ok [{ url := "https://other.com/products/x", product_name := "x" }] ∧
    urlHost "https://other.com/products/x" ≠ urlHost "https://example.com/sitemap.xml" :=
  ⟨rfl, by decide⟩

/-- C1, amended: `extract_product_urls` performs no host comparison at all:
a URL is returned (with some product name) exactly when it occurs in the
loaded sitemap URLs, contains the substring `/products/` and passes the
optional pattern filter — regardless of its host. -/
theorem claim1_amended (all_urls : List String) (pat : Option (String → Bool)) (u : String)
    (h : all_urls ≠ []) :
    ∃ L, extract_product_urls all_urls pat = Except.ok L ∧
      ((∃ nm, ({ url := u, product_name := nm } : ProductData) ∈ L) ↔
        u ∈ all_urls ∧ strContains u "/products/" = true ∧ matchesPat pat u = true) := by
  have hne : ¬(all_urls.isEmpty = true) := by
    simpa [List.isEmpty_iff] using h
  refine ⟨(all_urls.filter (fun v => strContains v "/products/" && matchesPat pat v)).map
      (fun v => { url := v, product_name := productNameOf v }), ?_, ?_⟩
  · simp [extract_product_urls, hne]
  · constructor
    · rintro ⟨nm, hm⟩
      rcases List.mem_map.1 hm with ⟨v, hv, heq⟩
      have hvu : v = u := congrArg ProductData.url heq
      rw [hvu] at hv
      have hf := List.mem_filter.1 hv
      have hb : strContains u "/products/" = true ∧ matchesPat pat u = true := by
        simpa using hf.2
      exact ⟨hf.1, hb.1, hb.2⟩
    · rintro ⟨hu, h1, h2⟩
      exact ⟨productNameOf u, List.mem_map_of_mem _ (List.mem_filter.2 ⟨hu, by simp [h1, h2]⟩)⟩

/-- Witness for the amended C1 at a concrete cross-host input. -/
theorem claim1_amended_witness :
    ∃ L, extract_product_urls ["https://other.com/products/x", "https://example.com/about"] none =
        Except.ok L ∧
      ((∃ nm, ({ url := "https://other.com/products/x", product_name := nm } : ProductData) ∈ L) ↔
        "https://other.com/products/x" ∈
            ["https://other.com/products/x", "https://example.com/about"] ∧
        strContains "https://other.com/products/x" "/products/" = true ∧
        matchesPat none "https://other.com/products/x" = true) :=
  claim1_amended ["https://other.com/products/x", "https://example.com/about"] none
    "https://other.com/products/x" (by simp)

/-! ## Claim C2 -/

/-- C2: on a sitemap index declaring locations `[A, B, C]` of which only `B`
contains the product token, `_process_sitemap_index` selects exactly `B` to
fetch and parse (the model's `Except.ok` value is the unique location passed
to `_load_and_parse_sitemap`); and when no declared location contains the
token, it falls back to exactly the first declared location. -/
theorem claim2_index_selection :
    (∀ nsa nsb nsc a b c : String,
        strEndsWith nsa "sitemap" = true → strEndsWith nsb "sitemap" = true →
        strEndsWith nsc "sitemap" = true →
        hasProductToken a = false → hasProductToken b = true → hasProductToken c = false →
        process_sitemap_index [⟨nsa, some a⟩, ⟨nsb, some b⟩, ⟨nsc, some c⟩] = Except.ok b) ∧
    (∀ (children : List XmlChild) (first : String) (rest : List String),
        collectSitemapLocs children = first :: rest →
        (∀ u ∈ first :: rest, hasProductToken u = false) →
        process_sitemap_index children = Except.ok first) := by
  constructor
  · intro nsa nsb nsc a b c hta htb htc ha hb hc
    simp [process_sitemap_index, collectSitemapLocs, hta, htb, htc, ha, hb, hc]
  · intro children first rest hcol hno
    have hfil : (first :: rest).filter (fun u => hasProductToken u) = [] := by
      rw [List.filter_eq_nil_iff]
      intro u hu
      simp [hno u hu]
    simp [process_sitemap_index, hcol, hfil]

/-- Witness for C2 at concrete index documents. -/
theorem claim2_index_selection_witness :
    process_sitemap_index
        [⟨"\x7bhttp://www.sitemaps.org/schemas/sitemap/0.9\x7dsitemap", some "https://e.com/sitemap_pages.xml"⟩,
         ⟨"\x7bhttp://www.sitemaps.org/schemas/sitemap/0.9\x7dsitemap", some "https://e.com/sitemap_products_2.xml"⟩,
         ⟨"\x7bhttp://www.sitemaps.org/schemas/sitemap/0.9\x7dsitemap", some "https://e.com/sitemap_blogs.xml"⟩] =
      Except.ok "https://e.com/sitemap_products_2.xml" ∧
    process_sitemap_index
        [⟨"\x7bhttp://www.sitemaps.org/schemas/sitemap/0.9\x7dsitemap", some "https://e.com/sitemap_main_1.xml"⟩,
         ⟨"\x7bhttp://www.sitemaps.org/schemas/sitemap/0.9\x7dsitemap", some "https://e.com/sitemap_main_2.xml"⟩] =
      Except.ok "https://e.com/sitemap_main_1.xml" :=
  ⟨claim2_index_selection.1 _ _ _ _ _ _ (by decide) (by decide) (by decide)
      (by decide) (by decide) (by decide),
   claim2_index_selection.2 _ "https://e.com/sitemap_main_1.xml" ["https://e.com/sitemap_main_2.xml"]
      rfl (by decide)⟩

/-! ## Claim C3 -/

/-- C3: on a sitemap index with no child locations the claim expects a
non-fatal `SitemapEmpty` outcome with an empty product-URL result. The code
instead raises: `_process_sitemap_index` evaluates `product_sitemaps[0]`
inside `logger.info` (src/sitemap_extractor.py line 239) before the
`if product_sitemaps:` guard, so an empty index raises `IndexError`, which
the `except` block re-raises to the caller; and even the later
`extract_product_urls` call raises `ValueError` when no URLs were loaded
(lines 307-308), so no path yields an empty result set. -/
theorem claim3_empty_index_raises :
    process_sitemap_index [] = Except.error "list index out of range" ∧
    extract_product_urls [] none =
      Except.error "No sitemap loaded. Call load_sitemap() first." :=
  ⟨rfl, rfl⟩

/-! ## Claim C9 -/

/-- C9, counterexample: the claim says the inferred name is lowercased with
hyphens normalized to spaces (and produced by a cascade of split
strategies). For the URL `https://example.com/products/My-Shirt` the code
returns the verbatim suffix `My-Shirt`, not the claimed `my shirt`: the
only strategy is `url.split('/products/')[-1]`, with no lowercasing, no
hyphen normalization and no truncation. -/
theorem claim9_counterexample :
    extract_product_urls ["https://example.com/products/My-Shirt"] none =
      Except.ok [{ url := "https://example.com/products/My-Shirt",
                   product_name := "My-Shirt" }] ∧
    ("My-Shirt" : String) ≠ "my shirt" :=
  ⟨rfl, by decide⟩

/-- C9, amended: every entry returned by `extract_product_urls` has a URL
containing `/products/`, and its product name is exactly the verbatim text
after the last occurrence of `/products/` in that URL — no lowercasing,
hyphen normalization or truncation is applied, no other split strategy
exists, and the `unknown` sentinel is unreachable for returned entries
because the filter already requires the `/products/` substring. -/
theorem claim9_amended (all_urls : List String) (pat : Option (String → Bool))
    (h : all_urls ≠ []) :
    ∃ L, extract_product_urls all_urls pat = Except.ok L ∧
      ∀ pd ∈ L, strContains pd.url "/products/" = true ∧
        pd.product_name = splitLast pd.url "/products/" := by
  have hne : ¬(all_urls.isEmpty = true) := by
    simpa [List.isEmpty_iff] using h
  refine ⟨(all_urls.filter (fun v => strContains v "/products/" && matchesPat pat v)).map
      (fun v => { url := v, product_name := productNameOf v }), ?_, ?_⟩
  · simp [extract_product_urls, hne]
  · intro pd hm
    rcases List.mem_map.1 hm with ⟨v, hv, heq⟩
    have hc : strContains v "/products/" = true := by
      have := (List.mem_filter.1 hv).2
      simp only [Bool.and_eq_true] at this
      exact this.1
    subst heq
    exact ⟨hc, by simp [productNameOf, hc]⟩

/-- Witness for the amended C9 at a concrete input. -/
theorem claim9_amended_witness :
    ∃ L, extract_product_urls ["https://example.com/products/My-Shirt"] none = Except.ok L ∧
      ∀ pd ∈ L, strContains pd.url "/products/" = true ∧
        pd.product_name = splitLast pd.url "/products/" :=
  claim9_amended ["https://example.com/products/My-Shirt"] none (by simp)

/-! ## Claim C6 -/

/-- C6: whenever `extract_pricing_info` assigned both `original_price` and
`sale_price`, it also assigned `savings_amount = original_price -
sale_price` (exact integer arithmetic), and the record emitted through
`_transform_data_schema` carries that exact difference; and a price absent
from the source page is defaulted to `0` (savings to `0`) by the transform,
never invented from other data. -/
theorem claim6_savings (w : Option PriceWrapperData) :
    (∀ o s : Nat, (extract_pricing_info w).original_price = some o →
        (extract_pricing_info w).sale_price = some s →
        (extract_pricing_info w).savings_amount = some ((o : Int) - (s : Int)) ∧
        (transform_pricing (extract_pricing_info w)).savings_amount = (o : Int) - (s : Int)) ∧
    ((extract_pricing_info w).original_price = none →
        (transform_pricing (extract_pricing_info w)).original_price = 0) ∧
    ((extract_pricing_info w).sale_price = none →
        (transform_pricing (extract_pricing_info w)).sale_price = 0) ∧
    ((extract_pricing_info w).savings_amount = none →
        (transform_pricing (extract_pricing_info w)).savings_amount = 0) := by
  refine ⟨?_, fun h => by simp [transform_pricing, h], fun h => by simp [transform_pricing, h],
    fun h => by simp [transform_pricing, h]⟩
  intro o s ho hs
  cases w with
  | none => exact absurd ho (by simp [extract_pricing_info])
  | some pw =>
    cases hcp : parsePriceField pw.compare_price with
    | error u =>
      have hred : extract_pricing_info (some pw) =
          { original_price := none, sale_price := none, discount_percentage := none,
            savings_amount := none, currency := none } := by
        simp only [extract_pricing_info]
        rw [hcp]
      rw [hred] at ho
      exact absurd ho (by simp)
    | ok op =>
      cases hrp : parsePriceField pw.regular_price with
      | error u =>
        have hred : extract_pricing_info (some pw) =
            { original_price := op, sale_price := none, discount_percentage := none,
              savings_amount := none, currency := none } := by
          simp only [extract_pricing_info]
          rw [hcp, hrp]
        rw [hred] at hs
        exact absurd hs (by simp)
      | ok sp =>
        cases op with
        | none =>
          have hred : (extract_pricing_info (some pw)).original_price = none := by
            simp only [extract_pricing_info, hcp, hrp]
          rw [hred] at ho
          exact absurd ho (by simp)
        | some o2 =>
          cases sp with
          | none =>
            have hred : (extract_pricing_info (some pw)).sale_price = none := by
              simp only [extract_pricing_info, hcp, hrp]
            rw [hred] at hs
            exact absurd hs (by simp)
          | some s2 =>
            have hext : extract_pricing_info (some pw) =
                { original_price := some o2, sale_price := some s2,
                  discount_percentage := pw.perc_price,
                  savings_amount := some ((o2 : Int) - (s2 : Int)),
                  currency := some "INR" } := by
              simp only [extract_pricing_info, hcp, hrp]
            rw [hext] at ho hs
            simp only at ho hs
            have ho2 : o2 = o := by simpa using ho
            have hs2 : s2 = s := by simpa using hs
            subst ho2
            subst hs2
            rw [hext]
            simp [transform_pricing]

/-- Witness for C6 at the spec's concrete scenario (compare-price text
`₹1,999`, regular-price text `₹1,499`), and the defaulting conjunct at a
page with no price wrapper. -/
theorem claim6_savings_witness :
    (extract_pricing_info (some ⟨some "₹1,999", some "₹1,499", none⟩)).savings_amount =
        some ((1999 : Int) - (1499 : Int)) ∧
    (transform_pricing (extract_pricing_info
        (some ⟨some "₹1,999", some "₹1,499", none⟩))).savings_amount =
      (1999 : Int) - (1499 : Int) ∧
    (transform_pricing (extract_pricing_info none)).original_price = 0 :=
  ⟨((claim6_savings (some ⟨some "₹1,999", some "₹1,499", none⟩)).1 1999 1499 rfl rfl).1,
   ((claim6_savings (some ⟨some "₹1,999", some "₹1,499", none⟩)).1 1999 1499 rfl rfl).2,
   (claim6_savings none).2.1 rfl⟩

/-! ## Claim C10 -/

/-- C10: `FastBulkScraper.__init__` raises `ValueError` exactly when the
source string starts with neither `http://` nor `https://` (and it performs
no network or filesystem activity: the constructor body only assigns
attributes); on every accepted prefix it stores the sitemap URL unchanged,
sets the 0.8-second delay, and starts with empty URL, scraped-data,
failed-URL and temp-file lists and all counters at zero. -/
theorem claim10_init (s : String) :
    ((FastBulkScraper_init s).isOk =
      (strStartsWith s "http://" || strStartsWith s "https://")) ∧
    ∀ st, FastBulkScraper_init s = Except.ok st →
      st.sitemap_source = s ∧ st.delay = 4 / 5 ∧ st.product_urls = [] ∧
      st.scraped_data = [] ∧ st.failed_urls = [] ∧ st.temp_files = [] ∧
      st.stats.total_urls = 0 ∧ st.stats.successful_scrapes = 0 ∧
      st.stats.failed_scrapes = 0 ∧ st.stats.start_time = none ∧
      st.stats.end_time = none := by
  constructor
  · cases hc : strStartsWith s "http://" || strStartsWith s "https://" <;>
      simp [FastBulkScraper_init, hc, Except.isOk, Except.toBool]
  · intro st hok
    rw [FastBulkScraper_init] at hok
    split at hok
    · cases hok
      simp [initialScraperState]
    · cases hok

/-- Witness for C10: construction from a well-formed sitemap URL. -/
theorem claim10_init_witness :
    (initialScraperState "https://thehouseofrare.com/sitemap.xml").sitemap_source =
        "https://thehouseofrare.com/sitemap.xml" ∧
      (initialScraperState "https://thehouseofrare.com/sitemap.xml").delay = 4 / 5 ∧
      (initialScraperState "https://thehouseofrare.com/sitemap.xml").product_urls = [] ∧
      (initialScraperState "https://thehouseofrare.com/sitemap.xml").scraped_data = [] ∧
      (initialScraperState "https://thehouseofrare.com/sitemap.xml").failed_urls = [] ∧
      (initialScraperState "https://thehouseofrare.com/sitemap.xml").temp_files = [] ∧
      (initialScraperState "https://thehouseofrare.com/sitemap.xml").stats.total_urls = 0 ∧
      (initialScraperState "https://thehouseofrare.com/sitemap.xml").stats.successful_scrapes = 0 ∧
      (initialScraperState "https://thehouseofrare.com/sitemap.xml").stats.failed_scrapes = 0 ∧
      (initialScraperState "https://thehouseofrare.com/sitemap.xml").stats.start_time = none ∧
      (initialScraperState "https://thehouseofrare.com/sitemap.xml").stats.end_time = none :=
  (claim10_init "https://thehouseofrare.com/sitemap.xml").2
    (initialScraperState "https://thehouseofrare.com/sitemap.xml") rfl

lemma failsOf_isEmpty_iff (i : Nat) (items : List ScrapeItem) :
    (failsOf i items).isEmpty = true ↔ errCount items = 0 := by
  rw [List.isEmpty_iff_length_eq_zero, failsOf_length]

/-! ## Claim C5 -/

/-- C5: `fast_scrape_products` raises the empty-input `ValueError` exactly
on an empty URL list — in the source this guard (src/bulk_scraper.py lines
245-247) precedes the directory creation, the loop, and every sleep, so it
fires before any scraping work; every non-empty run returns normally with a
report, a per-item failure only appends a `Failure` entry with the captured
error text and its 1-based index while the loop continues, and every item
is accounted for (`successful + failed = n`). -/
theorem claim5_run (d : ℚ) (rf : String → Bool) (items : List ScrapeItem) (h : items ≠ []) :
    fast_scrape_products d rf [] =
      Except.error "No URLs to scrape. Call extract_product_urls() first." ∧
    fast_scrape_products d rf items = Except.ok (runOutput d rf items) ∧
    (runOutput d rf items).state.successful + (runOutput d rf items).state.failed =
      items.length ∧
    ∀ (j : Nat) (url e : String), items.get? j = some (url, Except.error e) →
      ({ url := url, error := e, index := j + 1 } : FailedEntry) ∈
        (runOutput d rf items).state.failed_urls := by
  refine ⟨rfl, ?_, ?_, ?_⟩
  · rw [fast_scrape_products, if_neg (by simpa [List.isEmpty_iff] using h)]
  · rw [show (runOutput d rf items).state = loopState d items from rfl, loopState_eq]
    exact okCount_add_errCount items
  · intro j url e hg
    have hmem := failsOf_of_get items 1 j url e hg
    rw [Nat.add_comm 1 j] at hmem
    rw [show (runOutput d rf items).state = loopState d items from rfl, loopState_eq]
    exact hmem

/-- Witness for C5 at a concrete two-item run with one failure. -/
theorem claim5_run_witness :
    ({ url := "u2", error := "boom", index := 2 } : FailedEntry) ∈
      (runOutput (4 / 5) (fun _ => false)
        [("u1", Except.ok (sampleRaw none)), ("u2", Except.error "boom")]).state.failed_urls ∧
    (runOutput (4 / 5) (fun _ => false)
        [("u1", Except.ok (sampleRaw none)), ("u2", Except.error "boom")]).state.successful +
      (runOutput (4 / 5) (fun _ => false)
        [("u1", Except.ok (sampleRaw none)), ("u2", Except.error "boom")]).state.failed = 2 :=
  ⟨(claim5_run (4 / 5) (fun _ => false)
      [("u1", Except.ok (sampleRaw none)), ("u2", Except.error "boom")]
      (by simp)).2.2.2 1 "u2" "boom" rfl,
   (claim5_run (4 / 5) (fun _ => false)
      [("u1", Except.ok (sampleRaw none)), ("u2", Except.error "boom")] (by simp)).2.2.1⟩

/-! ## Claim C8 -/

/-- C8: in the scrape loop, the events of the 1-based iteration `j + 1` of
an item that is not the last (`j + 1 < n`) end with a sleep of the full
inter-request delay on success, and of half the delay on failure (the
failure branch sleeps `self.delay / 2` before continuing to the next item);
the first conjunct ties the per-iteration events to the actual run trace. -/
theorem claim8_sleeps (d : ℚ) (items : List ScrapeItem) :
    (loopState d items).events = eventsOf d items.length 1 items ∧
    (∀ (j : Nat) (url : String) (raw : RawData),
        items.get? j = some (url, Except.ok raw) → j + 1 < items.length →
        sleepTrace (itemEvents d items.length (j + 1) (url, Except.ok raw)) = [d]) ∧
    (∀ (j : Nat) (url e : String),
        items.get? j = some (url, Except.error e) → j + 1 < items.length →
        sleepTrace (itemEvents d items.length (j + 1) (url, Except.error e)) = [d / 2]) := by
  refine ⟨?_, ?_, ?_⟩
  · rw [loopState_eq]
  · intro j url raw _ hlt
    simp [itemEvents, sleepTrace, hlt]
  · intro j url e _ _
    simp [itemEvents, sleepTrace]

/-- Witness for C8: a failing first item sleeps half the delay, a
successful first item sleeps the full delay. -/
theorem claim8_sleeps_witness :
    sleepTrace (itemEvents (4 / 5) 2 (0 + 1) ("u1", Except.error "x")) = [4 / 5 / 2] ∧
    sleepTrace (itemEvents (4 / 5) 2 (0 + 1) ("u1", Except.ok (sampleRaw none))) = [4 / 5] :=
  ⟨(claim8_sleeps (4 / 5) [("u1", Except.error "x"), ("u2", Except.ok (sampleRaw none))]).2.2
      0 "u1" "x" rfl (by decide),
   (claim8_sleeps (4 / 5) [("u1", Except.ok (sampleRaw none)), ("u2", Except.error "x")]).2.1
      0 "u1" (sampleRaw none) rfl (by decide)⟩

lemma loopState_events (d : ℚ) (items : List ScrapeItem) :
    (loopState d items).events = eventsOf d items.length 1 items := by rw [loopState_eq]

lemma loopState_temps (d : ℚ) (items : List ScrapeItem) :
    (loopState d items).temp_files = tempsOf 1 items := by rw [loopState_eq]

lemma loopState_fails (d : ℚ) (items : List ScrapeItem) :
    (loopState d items).failed_urls = failsOf 1 items := by rw [loopState_eq]

lemma writeFile_mem_ev2 (d : ℚ) (items : List ScrapeItem) (p : String)
    (hp : p ∉ tempsOf 1 items) :
    (Event.writeFile p ∈
        (eventsOf d items.length 1 items ++
          [Event.writeFile "all_products.json", Event.writeFile "all_products.csv"] ++
          (if (failsOf 1 items).isEmpty then [] else [Event.writeFile "failed_urls.json"])) ↔
      (p = "all_products.json" ∨ p = "all_products.csv" ∨
        (p = "failed_urls.json" ∧ 0 < errCount items))) := by
  by_cases hK : errCount items = 0
  · have hEmp : (failsOf 1 items).isEmpty = true := (failsOf_isEmpty_iff 1 items).mpr hK
    simp [List.mem_append, writeFile_mem_eventsOf, hEmp, hp, hK]
  · have hEmp : (failsOf 1 items).isEmpty = false := by
      cases hB : (failsOf 1 items).isEmpty
      · rfl
      · exact absurd ((failsOf_isEmpty_iff 1 items).mp hB) hK
    have hKpos : 0 < errCount items := Nat.pos_of_ne_zero hK
    simp [List.mem_append, writeFile_mem_eventsOf, hEmp, hp, hKpos]

lemma noRemove_ev2 (d : ℚ) (items : List ScrapeItem) :
    ∀ q, Event.removeFile q ∉
      (eventsOf d items.length 1 items ++
        [Event.writeFile "all_products.json", Event.writeFile "all_products.csv"] ++
        (if (failsOf 1 items).isEmpty then [] else [Event.writeFile "failed_urls.json"])) := by
  intro q hq
  rcases List.mem_append.1 hq with hq | hq
  · rcases List.mem_append.1 hq with hq | hq
    · exact removeFile_not_mem_eventsOf d items.length items 1 q hq
    · simp at hq
  · by_cases hE : (failsOf 1 items).isEmpty = true <;> simp [hE] at hq

lemma mem_finalFs_of_notin_temps (d : ℚ) (rf : String → Bool) (items : List ScrapeItem)
    (p : String) (hp : p ∉ tempsOf 1 items) :
    (p ∈ (runOutput d rf items).finalFs ↔
      p = "all_products.json" ∨ p = "all_products.csv" ∨
      (p = "failed_urls.json" ∧ 0 < errCount items) ∨ p = "scraping_report.json") := by
  simp only [runOutput, generate_final_files, loopState_events, loopState_temps, loopState_fails]
  set E := eventsOf d items.length 1 items ++
    [Event.writeFile "all_products.json", Event.writeFile "all_products.csv"] ++
    (if (failsOf 1 items).isEmpty then [] else [Event.writeFile "failed_urls.json"]) with hE
  set F := applyEvents [] E with hF
  rw [applyEvents_append, applyEvents_append]
  rw [show ∀ fs : List String,
      applyEvents fs [Event.writeFile "scraping_report.json"] =
        applyEvent fs (Event.writeFile "scraping_report.json") from fun fs => rfl]
  rw [mem_applyEvent_write, ← hF]
  rw [cleanup_mem_of_notin rf (tempsOf 1 items) F p hp]
  rw [hF, mem_applyEvents_of_noRemove E (noRemove_ev2 d items) [] p]
  rw [show (Event.writeFile p ∈ E) ↔
      (p = "all_products.json" ∨ p = "all_products.csv" ∨
        (p = "failed_urls.json" ∧ 0 < errCount items)) from writeFile_mem_ev2 d items p hp]
  simp only [List.not_mem_nil, false_or]
  tauto

lemma mem_finalFs_false (d : ℚ) (items : List ScrapeItem) (p : String) :
    (p ∈ (runOutput d (fun _ => false) items).finalFs ↔
      (p ∉ tempsOf 1 items ∧
        (p = "all_products.json" ∨ p = "all_products.csv" ∨
          (p = "failed_urls.json" ∧ 0 < errCount items))) ∨
      p = "scraping_report.json") := by
  simp only [runOutput, generate_final_files, loopState_events, loopState_temps, loopState_fails]
  set E := eventsOf d items.length 1 items ++
    [Event.writeFile "all_products.json", Event.writeFile "all_products.csv"] ++
    (if (failsOf 1 items).isEmpty then [] else [Event.writeFile "failed_urls.json"]) with hE
  set F := applyEvents [] E with hF
  rw [applyEvents_append, applyEvents_append]
  rw [show ∀ fs : List String,
      applyEvents fs [Event.writeFile "scraping_report.json"] =
        applyEvent fs (Event.writeFile "scraping_report.json") from fun fs => rfl]
  rw [mem_applyEvent_write, ← hF]
  rw [cleanup_mem_false (tempsOf 1 items) F p]
  rw [hF, mem_applyEvents_of_noRemove E (noRemove_ev2 d items) [] p]
  simp only [List.not_mem_nil, false_or]
  by_cases hp : p ∈ tempsOf 1 items
  · simp only [hp, not_true_eq_false, and_false, false_and, false_or]
  · rw [show (Event.writeFile p ∈ E) ↔
        (p = "all_products.json" ∨ p = "all_products.csv" ∨
          (p = "failed_urls.json" ∧ 0 < errCount items)) from writeFile_mem_ev2 d items p hp]
    simp only [hp, not_false_eq_true, true_and]
    tauto

lemma runOutput_removes_after_writes (d : ℚ) (rf : String → Bool) (items : List ScrapeItem)
    (p : String) (m : Nat)
    (h : Event.removeFile p ∈ (runOutput d rf items).events.take m) :
    Event.writeFile "all_products.json" ∈ (runOutput d rf items).events.take m ∧
    Event.writeFile "all_products.csv" ∈ (runOutput d rf items).events.take m := by
  simp only [runOutput, generate_final_files, loopState_events, loopState_temps,
    loopState_fails] at h ⊢
  set E := eventsOf d items.length 1 items ++
    [Event.writeFile "all_products.json", Event.writeFile "all_products.csv"] ++
    (if (failsOf 1 items).isEmpty then [] else [Event.writeFile "failed_urls.json"]) with hE
  set F := applyEvents [] E with hF
  rw [List.append_assoc] at h ⊢
  have hall := mem_take_of_notin_left E
    ((cleanupEvents rf (tempsOf 1 items) F).1 ++ [Event.writeFile "scraping_report.json"])
    (Event.removeFile p) m (fun hq => noRemove_ev2 d items p hq) h
  have hwj : Event.writeFile "all_products.json" ∈ E := by rw [hE]; simp
  have hwc : Event.writeFile "all_products.csv" ∈ E := by rw [hE]; simp
  exact ⟨hall _ hwj, hall _ hwc⟩

/-! ## Claim C4 -/

/-- C4, counterexample: the claim says `failed_urls.json` exists after the
run if and only if some item failed. In a run whose successful product has
handle `failed_urls`, the per-item temp file is also named
`failed_urls.json`; although one item failed (`K = 1 > 0`), the cleanup
loop of `_generate_final_files` deletes that path after the failures file
was written, so `failed_urls.json` is absent from the final directory. -/
theorem claim4_counterexample :
    errCount [("u1", Except.ok (sampleRaw (some "failed_urls"))), ("u2", Except.error "boom")] = 1 ∧
    "failed_urls.json" ∉ (runOutput (4 / 5) (fun _ => false)
        [("u1", Except.ok (sampleRaw (some "failed_urls"))), ("u2", Except.error "boom")]).finalFs := by
  constructor
  · rfl
  · rw [show (runOutput (4 / 5) (fun _ => false)
        [("u1", Except.ok (sampleRaw (some "failed_urls"))), ("u2", Except.error "boom")]).finalFs =
      ["all_products.json", "all_products.csv", "scraping_report.json"] from rfl]
    decide

/-- C4, amended: for every run over `N ≥ 1` URLs with `K` per-item
failures, provided no successful item's temp file collides with a combined
artifact name (`all_products.json`, `failed_urls.json`): the combined JSON
array holds exactly `N - K` records, the failure list holds exactly `K`
entries of shape `{url, error, index}` pointing back at the failing items,
`all_products.json` is present in the final directory and
`failed_urls.json` is present there if and only if `K > 0`, and the
report's success rate is exactly `(N - K) / N`. -/
theorem claim4_amended (d : ℚ) (rf : String → Bool) (items : List ScrapeItem)
    (_hne : items ≠ [])
    (hj : "all_products.json" ∉ tempsOf 1 items)
    (hf : "failed_urls.json" ∉ tempsOf 1 items) :
    (runOutput d rf items).state.scraped_data.length = items.length - errCount items ∧
    (runOutput d rf items).state.failed_urls.length = errCount items ∧
    (∀ fe ∈ (runOutput d rf items).state.failed_urls,
        1 ≤ fe.index ∧ items.get? (fe.index - 1) = some (fe.url, Except.error fe.error)) ∧
    "all_products.json" ∈ (runOutput d rf items).finalFs ∧
    ("failed_urls.json" ∈ (runOutput d rf items).finalFs ↔ 0 < errCount items) ∧
    (runOutput d rf items).report.success_rate =
      ((items.length - errCount items : Nat) : ℚ) / (items.length : ℚ) := by
  have hstate : (runOutput d rf items).state = loopState d items := rfl
  refine ⟨?_, ?_, ?_, ?_, ?_, ?_⟩
  · rw [hstate, loopState_eq]
    show (scrapedOf items).length = items.length - errCount items
    rw [scrapedOf_length]
    have := okCount_add_errCount items
    omega
  · rw [hstate, loopState_eq]
    exact failsOf_length 1 items
  · rw [hstate, loopState_fails]
    exact get_of_failsOf items 1
  · rw [mem_finalFs_of_notin_temps d rf items _ hj]
    exact Or.inl rfl
  · rw [mem_finalFs_of_notin_temps d rf items _ hf]
    constructor
    · rintro (h | h | h | h)
      · exact absurd h (by decide)
      · exact absurd h (by decide)
      · exact h.2
      · exact absurd h (by decide)
    · intro hK
      exact Or.inr (Or.inr (Or.inl ⟨rfl, hK⟩))
  · show ((loopState d items).successful : ℚ) / (items.length : ℚ) =
      ((items.length - errCount items : Nat) : ℚ) / (items.length : ℚ)
    have hsucc : (loopState d items).successful = items.length - errCount items := by
      rw [loopState_eq]
      show okCount items = items.length - errCount items
      have := okCount_add_errCount items
      omega
    rw [hsucc]

/-- Witness for the amended C4 at a concrete two-item run with one
failure and no name collision. -/
theorem claim4_amended_witness :
    (runOutput (4 / 5) (fun _ => false)
        [("u1", Except.ok (sampleRaw none)), ("u2", Except.error "boom")]).state.scraped_data.length =
      [("u1", Except.ok (sampleRaw none)), ("u2", Except.error "boom")].length -
        errCount [("u1", Except.ok (sampleRaw none)), ("u2", Except.error "boom")] ∧
    ("failed_urls.json" ∈ (runOutput (4 / 5) (fun _ => false)
        [("u1", Except.ok (sampleRaw none)), ("u2", Except.error "boom")]).finalFs ↔
      0 < errCount [("u1", Except.ok (sampleRaw none)), ("u2", Except.error "boom")]) :=
  ⟨(claim4_amended (4 / 5) (fun _ => false)
      [("u1", Except.ok (sampleRaw none)), ("u2", Except.error "boom")]
      (by simp) (by decide) (by decide)).1,
   (claim4_amended (4 / 5) (fun _ => false)
      [("u1", Except.ok (sampleRaw none)), ("u2", Except.error "boom")]
      (by simp) (by decide) (by decide)).2.2.2.2.1⟩

/-! ## Claim C7 -/

/-- C7, counterexample: the claim says that after the run only the combined
artifacts (and conditionally the failures file) remain. In a run whose
successful product has handle `all_products`, the per-item temp file is
named `all_products.json` — the same path as the combined JSON — and the
cleanup loop deletes it after the combined file was written, so the
combined `all_products.json` artifact itself is missing from the final
directory. -/
theorem claim7_counterexample :
    "all_products.json" ∈ tempsOf 1 [("u1", Except.ok (sampleRaw (some "all_products")))] ∧
    "all_products.json" ∉ (runOutput (4 / 5) (fun _ => false)
        [("u1", Except.ok (sampleRaw (some "all_products")))]).finalFs := by
  constructor
  · decide
  · rw [show (runOutput (4 / 5) (fun _ => false)
        [("u1", Except.ok (sampleRaw (some "all_products")))]).finalFs =
      ["all_products.csv", "scraping_report.json"] from rfl]
    decide

/-- C7, amended: for every run (no injected deletion failures), provided no
per-item temp file collides with a combined artifact name: every tracked
per-item temp file is absent from the final directory; the final directory
holds exactly `all_products.json`, `all_products.csv`, conditionally
`failed_urls.json` (iff `K > 0`), and `scraping_report.json`; every file
deletion in the trace happens only after the combined JSON and CSV writes;
and the run returns its report normally for every deletion-failure
environment (a failed `os.remove` is caught and logged, never aborting the
run). -/
theorem claim7_amended (d : ℚ) (items : List ScrapeItem)
    (hne : items ≠ [])
    (h1 : "all_products.json" ∉ tempsOf 1 items)
    (h2 : "all_products.csv" ∉ tempsOf 1 items)
    (h3 : "failed_urls.json" ∉ tempsOf 1 items)
    (h4 : "scraping_report.json" ∉ tempsOf 1 items) :
    (∀ t ∈ (runOutput d (fun _ => false) items).state.temp_files,
        t ∉ (runOutput d (fun _ => false) items).finalFs) ∧
    (∀ p, p ∈ (runOutput d (fun _ => false) items).finalFs ↔
        (p = "all_products.json" ∨ p = "all_products.csv" ∨
          (p = "failed_urls.json" ∧ 0 < errCount items) ∨ p = "scraping_report.json")) ∧
    (∀ (q : String) (m : Nat),
        Event.removeFile q ∈ (runOutput d (fun _ => false) items).events.take m →
        Event.writeFile "all_products.json" ∈ (runOutput d (fun _ => false) items).events.take m ∧
        Event.writeFile "all_products.csv" ∈ (runOutput d (fun _ => false) items).events.take m) ∧
    (∀ rf : String → Bool, (fast_scrape_products d rf items).isOk = true) := by
  refine ⟨?_, ?_, ?_, ?_⟩
  · intro t ht hmem
    rw [show (runOutput d (fun _ => false) items).state = loopState d items from rfl,
      loopState_temps] at ht
    rw [mem_finalFs_false d items t] at hmem
    rcases hmem with ⟨hnt, _⟩ | hr
    · exact hnt ht
    · subst hr
      exact h4 ht
  · intro p
    rw [mem_finalFs_false d items p]
    constructor
    · rintro (⟨_, hc⟩ | hr)
      · tauto
      · tauto
    · rintro (rfl | rfl | ⟨rfl, hK⟩ | rfl)
      · exact Or.inl ⟨h1, Or.inl rfl⟩
      · exact Or.inl ⟨h2, Or.inr (Or.inl rfl)⟩
      · exact Or.inl ⟨h3, Or.inr (Or.inr ⟨rfl, hK⟩)⟩
      · exact Or.inr rfl
  · intro q m h
    exact runOutput_removes_after_writes d (fun _ => false) items q m h
  · intro rf
    rw [fast_scrape_products, if_neg (by simpa [List.isEmpty_iff] using hne)]
    rfl

/-- Witness for the amended C7 at a concrete collision-free run. -/
theorem claim7_amended_witness :
    ("all_products.json" ∈
        (runOutput (4 / 5) (fun _ => false) [("u1", Except.ok (sampleRaw none))]).finalFs ↔
      ("all_products.json" = "all_products.json" ∨ "all_products.json" = "all_products.csv" ∨
        ("all_products.json" = "failed_urls.json" ∧
          0 < errCount [("u1", Except.ok (sampleRaw none))]) ∨
        "all_products.json" = "scraping_report.json")) ∧
    (fast_scrape_products (4 / 5) (fun _ => false)
        [("u1", Except.ok (sampleRaw none))]).isOk = true :=
  ⟨(claim7_amended (4 / 5) [("u1", Except.ok (sampleRaw none))]
      (by simp) (by decide) (by decide) (by decide) (by decide)).2.1 "all_products.json",
   (claim7_amended (4 / 5) [("u1", Except.ok (sampleRaw none))]
      (by simp) (by decide) (by decide) (by decide) (by decide)).2.2.2 (fun _ => false)⟩
